import Mathlib

/-!
Shallow embedding of `src/code/intermediate/tutorial14-compute/src/model.rs`
(the model-loading and draw-dispatch module of the learn-wgpu tutorial 14
compute step), together with theorems checking the specification's claims.

Modelling conventions:
* Scalar vertex data (`f32` in the source) is a type parameter `α` with a
  `Zero` instance, since the source never performs arithmetic on the values,
  only moves them; theorems instantiate `α := Nat` for concrete evaluation.
* GPU buffers are represented by their CPU-side contents (the `contents`
  slice handed to `create_buffer_init`).
* A Rust panic (out-of-bounds slice index, `Option::unwrap` on `None`) is
  modelled as `none` in an outer `Option` layer; a returned
  `Result::Err`/`anyhow::Error` is `Except.error` inside it.
* `rayon`'s `par_iter().map(...).collect::<Result<Vec<_>>>()` is modelled by
  sequential left-to-right collection (`collectPR` below), matching the data
  flow; the parallel schedule itself is not representable.
-/

set_option autoImplicit false

universe u v w

/-- One vertex record, `ModelVertex` in the source (`model.rs` lines 14-22):
position (3 floats), tex_coords (2), normal (3), tangent (3), bitangent (3). -/
structure ModelVertex (α : Type u) where
  position : α × α × α
  tex_coords : α × α
  normal : α × α × α
  tangent : α × α × α
  bitangent : α × α × α
  deriving DecidableEq, Repr

/-- Raw mesh arrays as delivered by the `tobj` parser (`tobj::Mesh`): flat
`positions`/`texcoords`/`normals` arrays, `indices`, and the optional
`material_id`. -/
structure ObjMesh (α : Type u) where
  positions : List α
  texcoords : List α
  normals : List α
  indices : List Nat
  material_id : Option Nat
  deriving DecidableEq, Repr

/-- A named sub-model from the parser (`tobj::Model`). -/
structure ObjModel (α : Type u) where
  name : String
  mesh : ObjMesh α
  deriving DecidableEq, Repr

/-- A material record from the parser (`tobj::Material`): the fields `load`
uses are the name and the two texture file names. -/
structure ObjMaterial where
  name : String
  diffuse_texture : String
  normal_texture : String
  deriving DecidableEq, Repr

/-- A loaded GPU texture (`texture::Texture`): the view and sampler handles,
abstract over a handle type `τ`. -/
structure Texture (τ : Type v) where
  view : τ
  sampler : τ
  deriving DecidableEq, Repr

/-- Sequential model of `iter().map(f).collect::<Vec<_>>()` over a fallible
body where failure is a panic: the first `none` aborts the whole collection. -/
def mapPanic {β : Type u} {γ : Type v} (f : β → Option γ) : List β → Option (List γ)
  | [] => some []
  | x :: xs =>
    match f x with
    | none => none
    | some y =>
      match mapPanic f xs with
      | none => none
      | some ys => some (y :: ys)

/-- Embedding of `model.rs` lines 231-254: the vertex construction inside `load`.  For
`i` in `0 .. positions.len() / 3` build a `ModelVertex` by indexing the flat
arrays; an out-of-bounds index is a panic (`none`).  Tangent and bitangent
are set to `[0.0; 3]`. -/
def buildVertices {α : Type u} [Zero α] (m : ObjMesh α) : Option (List (ModelVertex α)) :=
  mapPanic (fun i => do
    let p0 ← m.positions[i * 3]?
    let p1 ← m.positions[i * 3 + 1]?
    let p2 ← m.positions[i * 3 + 2]?
    let t0 ← m.texcoords[i * 2]?
    let t1 ← m.texcoords[i * 2 + 1]?
    let n0 ← m.normals[i * 3]?
    let n1 ← m.normals[i * 3 + 1]?
    let n2 ← m.normals[i * 3 + 2]?
    some { position := (p0, p1, p2)
           tex_coords := (t0, t1)
           normal := (n0, n1, n2)
           tangent := (0, 0, 0)
           bitangent := (0, 0, 0) })
    (List.range (m.positions.length / 3))

/-- Embedding of `Mesh` (`model.rs` lines 112-118): name, the two GPU buffers (kept as
their contents), `num_elements : u32`, and the material index. -/
structure Mesh (α : Type u) where
  name : String
  vertex_buffer : List (ModelVertex α)
  index_buffer : List Nat
  num_elements : Nat
  material : Nat
  deriving DecidableEq, Repr

/-- The error values `load` can return through `anyhow::Result`:
`tobj::load_obj` failure, the missing-parent-directory context error, and a
texture load failure (tagged with the path and normal-map flag it was called
with). -/
inductive LoadError where
  | objLoad : LoadError
  | noParent : LoadError
  | texture (path : String) (is_normal_map : Bool) : LoadError
  deriving DecidableEq, Repr

/-- The per-mesh closure of `load` (`model.rs` lines 230-298) up to its pure
result: build the vertices (panic possible), upload both buffers, and record
`num_elements = indices.len() as u32` and
`material = material_id.unwrap_or(0)`.  The closure itself always returns
`Ok(mesh)`; its only failure mode is the panic inside `buildVertices`. -/
def buildMesh {α : Type u} [Zero α] (m : ObjModel α) : Option (Except LoadError (Mesh α)) :=
  match buildVertices m.mesh with
  | none => none
  | some vertices =>
    some (.ok
      { name := m.name
        vertex_buffer := vertices
        index_buffer := m.mesh.indices
        num_elements := m.mesh.indices.length % 2 ^ 32
        material := m.mesh.material_id.getD 0 })

/-- Embedding of `model.rs` line 292: `pass.dispatch(mesh.num_elements as u32 / 3, 1, 1)` —
the x-extent of the tangent/bitangent compute dispatch issued for a mesh. -/
def dispatchCount {α : Type u} (mesh : Mesh α) : Nat :=
  mesh.num_elements / 3

/-- A resource placed in a texture bind group (`wgpu::BindingResource` as used
in `Material::new`): a texture view or a sampler, over a handle type `τ`. -/
inductive TexResource (τ : Type v) where
  | textureView (v : τ)
  | sampler (s : τ)
  deriving DecidableEq, Repr

/-- Embedding of `Material` (`model.rs` lines 65-70): name, the two textures, and the
precomputed bind group (kept as its entry list of binding index / resource
pairs). -/
structure Material (τ : Type v) where
  name : String
  diffuse_texture : Texture τ
  normal_texture : Texture τ
  bind_group : List (Nat × TexResource τ)
  deriving DecidableEq, Repr

/-- Embedding of `Material::new` (`model.rs` lines 73-109): builds the bind group with
binding 0 = diffuse view, 1 = diffuse sampler, 2 = normal view,
3 = normal sampler, and stores both textures. -/
def Material.new {τ : Type v} (name : String) (diffuse_texture normal_texture : Texture τ) :
    Material τ :=
  { name := name
    diffuse_texture := diffuse_texture
    normal_texture := normal_texture
    bind_group :=
      [(0, .textureView diffuse_texture.view),
       (1, .sampler diffuse_texture.sampler),
       (2, .textureView normal_texture.view),
       (3, .sampler normal_texture.sampler)] }

/-- Embedding of `Path::join` of the containing folder with a texture file name. -/
def joinPath (folder name : String) : String :=
  folder ++ "/" ++ name

/-- Embedding of `texture::Texture::load(device, queue, path, is_normal_map)` lifted to the
embedding: the external loader `loadTex` either produces a texture or fails,
and a failure surfaces as an `anyhow` error (modelled as
`LoadError.texture path is_normal_map`). -/
def loadTexture {τ : Type v} (loadTex : String → Bool → Option (Texture τ))
    (path : String) (is_normal_map : Bool) : Except LoadError (Texture τ) :=
  match loadTex path is_normal_map with
  | some t => .ok t
  | none => .error (.texture path is_normal_map)

/-- Sequential model of `iter().map(f).collect::<Result<Vec<_>>>()`: the first
`Err` aborts the collection with that error. -/
def collectResult {β : Type u} {γ : Type v} (f : β → Except LoadError γ) :
    List β → Except LoadError (List γ)
  | [] => .ok []
  | x :: xs =>
    match f x with
    | .error e => .error e
    | .ok y =>
      match collectResult f xs with
      | .error e => .error e
      | .ok ys => .ok (y :: ys)

/-- Embedding of `Vec::pop`: removes and returns the LAST element, `none` on an empty
vector. -/
def vecPop {β : Type u} : List β → Option (β × List β)
  | [] => none
  | [x] => some (x, [])
  | x :: y :: xs =>
    match vecPop (y :: xs) with
    | none => none
    | some (last, rest) => some (last, x :: rest)

/-- The per-material closure of `load` (`model.rs` lines 202-225): load the
diffuse texture with `is_normal_map = false` and the normal texture with
`true` (in that list order), collect the two results, then `pop` twice —
the first pop is taken as the normal texture, the second as the diffuse
texture — and build the `Material`.  The `unwrap`s on the pops are panics
(`none`) if the vector is too short. -/
def loadMaterial {τ : Type v} (loadTex : String → Bool → Option (Texture τ))
    (containing_folder : String) (mat : ObjMaterial) :
    Option (Except LoadError (Material τ)) :=
  match collectResult (fun p => loadTexture loadTex p.1 p.2)
      [(joinPath containing_folder mat.diffuse_texture, false),
       (joinPath containing_folder mat.normal_texture, true)] with
  | .error e => some (.error e)
  | .ok textures =>
    match vecPop textures with
    | none => none
    | some (normal_texture, textures) =>
      match vecPop textures with
      | none => none
      | some (diffuse_texture, _) =>
        some (.ok (Material.new mat.name diffuse_texture normal_texture))

/-- Sequential model of `par_iter().map(f).collect::<Result<Vec<_>>>()` over a
body that can also panic: an outer `none` is a panic, an inner `Except.error`
is a returned error; the first abnormal element decides the result. -/
def collectPR {γ : Type u} : List (Option (Except LoadError γ)) →
    Option (Except LoadError (List γ))
  | [] => some (.ok [])
  | x :: xs =>
    match x with
    | none => none
    | some (.error e) => some (.error e)
    | some (.ok y) =>
      match collectPR xs with
      | none => none
      | some (.error e) => some (.error e)
      | some (.ok ys) => some (.ok (y :: ys))

/-- Embedding of `Model` (`model.rs` lines 166-169): the meshes and materials sequences. -/
structure Model (α : Type u) (τ : Type v) where
  meshes : List (Mesh α)
  materials : List (Material τ)
  deriving DecidableEq, Repr

/-- Embedding of `ModelLoader::load` (`model.rs` lines 188-302) up to its pure data flow:
`tobj::load_obj` and the parent-directory lookup are inputs (`objResult`,
`parent`), their failures produce `LoadError.objLoad` / `LoadError.noParent`
via `?` and `context(...)?`; then all materials are collected, then all
meshes, each collection short-circuiting on the first error, and the `Model`
is assembled only when everything succeeded. -/
def ModelLoader.load {α : Type u} {τ : Type v} [Zero α]
    (loadTex : String → Bool → Option (Texture τ))
    (objResult : Option (List (ObjModel α) × List ObjMaterial))
    (parent : Option String) : Option (Except LoadError (Model α τ)) :=
  match objResult with
  | none => some (.error .objLoad)
  | some (obj_models, obj_materials) =>
    match parent with
    | none => some (.error .noParent)
    | some containing_folder =>
      match collectPR (obj_materials.map (loadMaterial loadTex containing_folder)) with
      | none => none
      | some (.error e) => some (.error e)
      | some (.ok materials) =>
        match collectPR (obj_models.map buildMesh) with
        | none => none
        | some (.error e) => some (.error e)
        | some (.ok meshes) => some (.ok { meshes := meshes, materials := materials })

/-- Embedding of `wgpu::ShaderStage` as used in `Mesh::layout_entries`. -/
inductive ShaderStage where
  | COMPUTE
  deriving DecidableEq, Repr

/-- Embedding of `wgpu::BindingType` as used in `Mesh::layout_entries`. -/
inductive BindingType where
  | StorageBuffer (dynamic : Bool) (min_binding_size : Option Nat) (readonly : Bool)
  deriving DecidableEq, Repr

/-- Embedding of `wgpu::BindGroupLayoutEntry`. -/
structure BindGroupLayoutEntry where
  binding : Nat
  visibility : ShaderStage
  ty : BindingType
  count : Option Nat
  deriving DecidableEq, Repr

/-- The buffer slice handed to `wgpu::BindingResource::Buffer` in
`Mesh::bind_group_entries`: either the mesh's vertex buffer or its index
buffer (kept as contents). -/
inductive BindingResource (α : Type u) where
  | buffer (slice : List (ModelVertex α) ⊕ List Nat)
  deriving DecidableEq, Repr

/-- Embedding of `wgpu::BindGroupEntry`. -/
structure BindGroupEntry (α : Type u) where
  binding : Nat
  resource : BindingResource α
  deriving DecidableEq, Repr

/-- Embedding of `impl pipeline::Bindable for Mesh`, `layout_entries` (`model.rs` lines
121-148): binding 0 is a writable storage buffer for the vertices, binding 1
a read-only storage buffer for the indices, both compute-only. -/
def Mesh.layout_entries : List BindGroupLayoutEntry :=
  [{ binding := 0
     visibility := .COMPUTE
     ty := .StorageBuffer false none false
     count := none },
   { binding := 1
     visibility := .COMPUTE
     ty := .StorageBuffer false none true
     count := none }]

/-- Embedding of `impl pipeline::Bindable for Mesh`, `bind_group_entries` (`model.rs` lines
150-163), transcribed as written: the vertex-buffer entry uses binding 0 and
the index-buffer entry ALSO uses binding 0. -/
def Mesh.bind_group_entries {α : Type u} (m : Mesh α) : List (BindGroupEntry α) :=
  [{ binding := 0
     resource := .buffer (.inl m.vertex_buffer) },
   { binding := 0
     resource := .buffer (.inr m.index_buffer) }]

/-- Embedding of `wgpu::VertexFormat` members used by `ModelVertex::desc`. -/
inductive VertexFormat where
  | Float2
  | Float3
  deriving DecidableEq, Repr

/-- Byte size of a vertex attribute format (`Float2` = 2 × f32, `Float3` =
3 × f32). -/
def VertexFormat.byteSize : VertexFormat → Nat
  | .Float2 => 2 * 4
  | .Float3 => 3 * 4

/-- Embedding of `wgpu::InputStepMode` as used by `ModelVertex::desc`. -/
inductive InputStepMode where
  | Vertex
  deriving DecidableEq, Repr

/-- Embedding of `wgpu::VertexAttributeDescriptor`. -/
structure VertexAttributeDescriptor where
  offset : Nat
  shader_location : Nat
  format : VertexFormat
  deriving DecidableEq, Repr

/-- Embedding of `wgpu::VertexBufferDescriptor`. -/
structure VertexBufferDescriptor where
  stride : Nat
  step_mode : InputStepMode
  attributes : List VertexAttributeDescriptor
  deriving DecidableEq, Repr

/-- Embedding of `mem::size_of::<[f32; n]>()`: `n` IEEE-754 single floats of four bytes. -/
def sizeOfF32Array (n : Nat) : Nat := 4 * n

/-- Embedding of `mem::size_of::<ModelVertex>()`: a `repr(C)` struct of five
`cgmath` vectors of f32 totalling 3+2+3+3+3 = 14 floats; every field has
alignment 4, so there is no padding and the size is 14 × 4 bytes. -/
def sizeOfModelVertex : Nat := sizeOfF32Array 14

/-- Embedding of `ModelVertex::desc` (`model.rs` lines 27-63): stride =
`size_of::<ModelVertex>()`, per-vertex stepping, and five attributes whose
offsets are `size_of::<[f32; k]>()` for `k = 0, 3, 5, 8, 11`. -/
def ModelVertex.desc : VertexBufferDescriptor :=
  { stride := sizeOfModelVertex
    step_mode := .Vertex
    attributes :=
      [{ offset := 0
         shader_location := 0
         format := .Float3 },
       { offset := sizeOfF32Array 3
         shader_location := 1
         format := .Float2 },
       { offset := sizeOfF32Array 5
         shader_location := 2
         format := .Float3 },
       { offset := sizeOfF32Array 8
         shader_location := 3
         format := .Float3 },
       { offset := sizeOfF32Array 11
         shader_location := 4
         format := .Float3 }] }

/-- A bind group as seen by the render-pass draw calls: either a material's
texture bind group built in `Material::new`, or an externally supplied bind
group (uniforms, light) of handle type `κ`. -/
inductive BindGroupRef (τ : Type v) (κ : Type w) where
  | material (entries : List (Nat × TexResource τ))
  | external (g : κ)
  deriving DecidableEq, Repr

/-- One recorded `wgpu::RenderPass` command, as issued by the draw-dispatch
layer (`model.rs` lines 348-494). -/
inductive RenderCommand (α : Type u) (τ : Type v) (κ : Type w) where
  | setVertexBuffer (slot : Nat) (buf : List (ModelVertex α))
  | setIndexBuffer (buf : List Nat)
  | setBindGroup (index : Nat) (group : BindGroupRef τ κ)
  | drawIndexed (indices : Nat × Nat) (base_vertex : Int) (instances : Nat × Nat)
  deriving DecidableEq, Repr

/-- Embedding of `draw_mesh_instanced` (`model.rs` lines 362-376): bind the mesh's vertex
and index buffers, bind groups 0 = material, 1 = uniforms, 2 = light, then
`draw_indexed(0..num_elements, 0, instances)`. -/
def drawMeshInstanced {α : Type u} {τ : Type v} {κ : Type w} (mesh : Mesh α)
    (material : Material τ) (instances : Nat × Nat) (uniforms light : κ) :
    List (RenderCommand α τ κ) :=
  [.setVertexBuffer 0 mesh.vertex_buffer,
   .setIndexBuffer mesh.index_buffer,
   .setBindGroup 0 (.material material.bind_group),
   .setBindGroup 1 (.external uniforms),
   .setBindGroup 2 (.external light),
   .drawIndexed (0, mesh.num_elements) 0 instances]

/-- Embedding of `draw_mesh` (`model.rs` lines 352-360): delegates to
`draw_mesh_instanced` with the instance range `0..1`. -/
def drawMesh {α : Type u} {τ : Type v} {κ : Type w} (mesh : Mesh α)
    (material : Material τ) (uniforms light : κ) : List (RenderCommand α τ κ) :=
  drawMeshInstanced mesh material (0, 1) uniforms light

/-- Embedding of `draw_model_instanced` (`model.rs` lines 387-398): for each mesh in
order, look up `materials[mesh.material]` (a panic if out of bounds, modelled
as `none`) and issue `draw_mesh_instanced`. -/
def drawModelInstanced {α : Type u} {τ : Type v} {κ : Type w} (model : Model α τ)
    (instances : Nat × Nat) (uniforms light : κ) :
    Option (List (RenderCommand α τ κ)) :=
  (mapPanic (fun mesh =>
      match model.materials[mesh.material]? with
      | none => none
      | some material => some (drawMeshInstanced mesh material instances uniforms light))
    model.meshes).map List.flatten

/-- Embedding of `draw_model` (`model.rs` lines 378-385): delegates to
`draw_model_instanced` with the instance range `0..1`. -/
def drawModel {α : Type u} {τ : Type v} {κ : Type w} (model : Model α τ)
    (uniforms light : κ) : Option (List (RenderCommand α τ κ)) :=
  drawModelInstanced model (0, 1) uniforms light

/-- Embedding of `draw_light_mesh_instanced` (`model.rs` lines 461-473): bind the mesh's
buffers, bind groups 0 = uniforms, 1 = light, then
`draw_indexed(0..num_elements, 0, instances)`. -/
def drawLightMeshInstanced {α : Type u} {τ : Type v} {κ : Type w} (mesh : Mesh α)
    (instances : Nat × Nat) (uniforms light : κ) : List (RenderCommand α τ κ) :=
  [.setVertexBuffer 0 mesh.vertex_buffer,
   .setIndexBuffer mesh.index_buffer,
   .setBindGroup 0 (.external uniforms),
   .setBindGroup 1 (.external light),
   .drawIndexed (0, mesh.num_elements) 0 instances]

/-- Embedding of `draw_light_mesh` (`model.rs` lines 452-459): delegates to
`draw_light_mesh_instanced` with the instance range `0..1`. -/
def drawLightMesh {α : Type u} {τ : Type v} {κ : Type w} (mesh : Mesh α)
    (uniforms light : κ) : List (RenderCommand α τ κ) :=
  drawLightMeshInstanced mesh (0, 1) uniforms light

/-- Embedding of `draw_light_model_instanced` (`model.rs` lines 483-493): issue
`draw_light_mesh_instanced` for every mesh in order (no material lookup). -/
def drawLightModelInstanced {α : Type u} {τ : Type v} {κ : Type w} (model : Model α τ)
    (instances : Nat × Nat) (uniforms light : κ) : List (RenderCommand α τ κ) :=
  (model.meshes.map (fun mesh => drawLightMeshInstanced mesh instances uniforms light)).flatten

/-- Embedding of `draw_light_model` (`model.rs` lines 475-482): delegates to
`draw_light_model_instanced` with the instance range `0..1`. -/
def drawLightModel {α : Type u} {τ : Type v} {κ : Type w} (model : Model α τ)
    (uniforms light : κ) : List (RenderCommand α τ κ) :=
  drawLightModelInstanced model (0, 1) uniforms light

/-- A parsed sub-model with inconsistent arrays: one vertex declared by
`positions` but no texcoords at all. -/
def c2objModel : ObjModel Nat :=
  { name := "inconsistent", mesh := ⟨[1, 2, 3], [], [11, 12, 13], [0, 0, 0], none⟩ }

/-- A parsed sub-model that is consistent (one vertex, zero faces) and
declares no material. -/
def c3objModel : ObjModel Nat :=
  { name := "m", mesh := ⟨[1, 2, 3], [4, 5], [6, 7, 8], [], none⟩ }

/-- The `Model` that `load` produces from `c3objModel` with an empty material
list: its single mesh stores material index 0 while `materials` is empty. -/
def c3model : Model Nat Unit :=
  { meshes := [{ name := "m"
                 vertex_buffer := [⟨(1, 2, 3), (4, 5), (6, 7, 8), (0, 0, 0), (0, 0, 0)⟩]
                 index_buffer := []
                 num_elements := 0
                 material := 0 }]
    materials := [] }

/-- A parsed sub-model with inconsistent arrays: one vertex declared by
`positions` but an empty `normals` array. -/
def c4objModel : ObjModel Nat :=
  { name := "nonormals", mesh := ⟨[1, 2, 3], [4, 5], [], [], none⟩ }

/-- A consistent two-vertex parsed mesh used to evaluate the vertex builder. -/
def c5mesh : ObjMesh Nat :=
  ⟨[1, 2, 3, 4, 5, 6], [7, 8, 9, 10], [11, 12, 13, 14, 15, 16], [0, 1, 2], none⟩

/-- A concrete texture loader that always succeeds and returns a handle pair
identifying which flag it was called with. -/
def c6loadTex : String → Bool → Option (Texture Nat) :=
  fun _ is_normal_map => if is_normal_map then some ⟨1, 2⟩ else some ⟨3, 4⟩

/-- A concrete texture loader for the material-index witness. -/
def c3loadTex : String → Bool → Option (Texture Nat) :=
  fun _ is_normal_map => if is_normal_map then some ⟨1, 2⟩ else some ⟨3, 4⟩

/-- The single material record used by the material-index witness. -/
def c3objMaterial : ObjMaterial := ⟨"mat", "d.png", "n.png"⟩

/-- The `Model` that `load` produces from `c7objModel` and `c3objMaterial`
under `c3loadTex`. -/
def c3okmodel : Model Nat Nat :=
  { meshes := [{ name := "zerofaces"
                 vertex_buffer := [⟨(1, 2, 3), (4, 5), (6, 7, 8), (0, 0, 0), (0, 0, 0)⟩]
                 index_buffer := []
                 num_elements := 0
                 material := 0 }]
    materials := [{ name := "mat"
                    diffuse_texture := ⟨3, 4⟩
                    normal_texture := ⟨1, 2⟩
                    bind_group := [(0, .textureView 3), (1, .sampler 4),
                                   (2, .textureView 1), (3, .sampler 2)] }] }

/-- A parsed sub-model with zero faces (empty index array). -/
def c7objModel : ObjModel Nat :=
  { name := "zerofaces", mesh := ⟨[1, 2, 3], [4, 5], [6, 7, 8], [], some 0⟩ }

/-- A concrete mesh used to exhibit the binding-index defect of
`Mesh::bind_group_entries`. -/
def c1mesh : Mesh Nat :=
  { name := "cube"
    vertex_buffer := [⟨(1, 2, 3), (4, 5), (6, 7, 8), (0, 0, 0), (0, 0, 0)⟩]
    index_buffer := [0, 0, 0]
    num_elements := 3
    material := 0 }

/-- Claim C1 (code bug evaluation): the layout declared by
`Mesh::layout_entries` uses the two distinct binding indices 0 (writable
storage, vertices) and 1 (read-only storage, indices), but the bind group
entries produced for a mesh assign binding index 0 to BOTH buffers: the
index-buffer entry carries binding 0, not the declared binding 1.  Evaluated
at the concrete mesh `c1mesh`. -/
theorem bind_group_entries_binding_mismatch :
    (Mesh.layout_entries.map (fun e => e.binding) = [0, 1]) ∧
    (c1mesh.bind_group_entries.map (fun e => e.binding) = [0, 0]) ∧
    c1mesh.bind_group_entries[1]? =
      some { binding := 0, resource := .buffer (.inr c1mesh.index_buffer) } ∧
    ¬ ∃ e ∈ c1mesh.bind_group_entries,
        e.binding = 1 ∧ e.resource = .buffer (.inr c1mesh.index_buffer) := by
  refine ⟨rfl, rfl, rfl, ?_⟩
  decide

/-- Claim C8: in the main draw path (`draw_mesh_instanced`) bind-group slot 0
receives the material's bind group, slot 1 the uniforms, slot 2 the light
bind group; in the light-only path (`draw_light_mesh_instanced`) slot 0
receives the uniforms and slot 1 the light bind group; both paths bind the
mesh's vertex buffer (slot 0) and index buffer and issue
`draw_indexed(0..num_elements, 0, instances)` for the caller's instance
range. -/
theorem draw_paths_bindings {α : Type u} {τ : Type v} {κ : Type w}
    (mesh : Mesh α) (material : Material τ) (uniforms light : κ)
    (instances : Nat × Nat) :
    drawMeshInstanced mesh material instances uniforms light =
      [.setVertexBuffer 0 mesh.vertex_buffer,
       .setIndexBuffer mesh.index_buffer,
       .setBindGroup 0 (.material material.bind_group),
       .setBindGroup 1 (.external uniforms),
       .setBindGroup 2 (.external light),
       .drawIndexed (0, mesh.num_elements) 0 instances] ∧
    drawLightMeshInstanced (τ := τ) mesh instances uniforms light =
      [.setVertexBuffer 0 mesh.vertex_buffer,
       .setIndexBuffer mesh.index_buffer,
       .setBindGroup 0 (.external uniforms),
       .setBindGroup 1 (.external light),
       .drawIndexed (0, mesh.num_elements) 0 instances] :=
  ⟨rfl, rfl⟩

/-- Claim C9: `ModelVertex::desc` declares five attributes at shader
locations 0-4 with byte offsets 0, 12, 20, 32, 44 and formats
Float3, Float2, Float3, Float3, Float3; the stride equals
`size_of::<ModelVertex>()` = 56 bytes; the layout is contiguous: each
attribute starts where the previous one ends, and the last one ends exactly
at the stride, so there are no gaps. -/
theorem modelVertex_desc_layout :
    (ModelVertex.desc.attributes.map (fun a => a.offset) = [0, 12, 20, 32, 44]) ∧
    (ModelVertex.desc.attributes.map (fun a => a.shader_location) = [0, 1, 2, 3, 4]) ∧
    (ModelVertex.desc.attributes.map (fun a => a.format) =
      [.Float3, .Float2, .Float3, .Float3, .Float3]) ∧
    ModelVertex.desc.stride = sizeOfModelVertex ∧
    sizeOfModelVertex = 56 ∧
    ((ModelVertex.desc.attributes.zip ModelVertex.desc.attributes.tail).all
      (fun p => p.2.offset == p.1.offset + p.1.format.byteSize)) = true ∧
    ModelVertex.desc.stride = 44 + VertexFormat.byteSize .Float3 := by
  refine ⟨rfl, rfl, rfl, rfl, rfl, ?_, rfl⟩
  decide

/-- Lemma: `mapPanic` succeeds with the mapped list when the body succeeds on every
element. -/
theorem mapPanic_eq_some_map {β : Type u} {γ : Type v} {f : β → Option γ} {g : β → γ} :
    ∀ {l : List β}, (∀ x ∈ l, f x = some (g x)) → mapPanic f l = some (l.map g)
  | [], _ => rfl
  | x :: xs, h => by
    have hx := h x (List.mem_cons_self x xs)
    have hxs := mapPanic_eq_some_map (fun y hy => h y (List.mem_cons_of_mem x hy))
    simp [mapPanic, hx, hxs]

/-- Lemma: `mapPanic` panics when the body panics on some element. -/
theorem mapPanic_eq_none_of_mem {β : Type u} {γ : Type v} {f : β → Option γ} {x : β} :
    ∀ {l : List β}, x ∈ l → f x = none → mapPanic f l = none
  | [], hx, _ => absurd hx (List.not_mem_nil x)
  | y :: ys, hx, hfx => by
    rcases List.mem_cons.mp hx with h | h
    · subst h; simp [mapPanic, hfx]
    · cases hfy : f y with
      | none => simp [mapPanic, hfy]
      | some z => simp [mapPanic, hfy, mapPanic_eq_none_of_mem h hfx]

/-- Inversion of a successful `collectPR` step. -/
theorem collectPR_cons_ok {γ : Type u} {x : Option (Except LoadError γ)}
    {xs : List (Option (Except LoadError γ))} {bs : List γ}
    (h : collectPR (x :: xs) = some (.ok bs)) :
    ∃ y ys, x = some (.ok y) ∧ collectPR xs = some (.ok ys) ∧ bs = y :: ys := by
  match x with
  | none => simp [collectPR] at h
  | some (.error e) => simp [collectPR] at h
  | some (.ok y) =>
    cases hxs : collectPR xs with
    | none => simp [collectPR, hxs] at h
    | some r =>
      cases r with
      | error e => simp [collectPR, hxs] at h
      | ok ys =>
        simp [collectPR, hxs] at h
        exact ⟨y, ys, rfl, rfl, h.symm⟩

/-- A successful `collectPR` yields one result per input. -/
theorem collectPR_ok_length {γ : Type u} :
    ∀ {l : List (Option (Except LoadError γ))} {bs : List γ},
      collectPR l = some (.ok bs) → bs.length = l.length
  | [], bs, h => by
    simp [collectPR] at h
    simp [← h]
  | x :: xs, bs, h => by
    obtain ⟨y, ys, hx, hxs, hbs⟩ := collectPR_cons_ok h
    subst hbs
    simp [collectPR_ok_length hxs]

/-- A successful `collectPR` is pointwise: the `i`-th output comes from a
successful `i`-th input. -/
theorem collectPR_ok_getElem {γ : Type u} :
    ∀ (l : List (Option (Except LoadError γ))) (bs : List γ),
      collectPR l = some (.ok bs) → ∀ (i : Nat) (b : γ), bs[i]? = some b →
        l[i]? = some (some (Except.ok b : Except LoadError γ))
  | [], bs, h, i, b, hb => by
    simp [collectPR] at h
    subst h
    simp at hb
  | x :: xs, bs, h, i, b, hb => by
    obtain ⟨y, ys, hx, hxs, hbs⟩ := collectPR_cons_ok h
    subst hbs hx
    cases i with
    | zero =>
      simp at hb
      subst hb
      simp
    | succ j =>
      simp only [List.getElem?_cons_succ] at hb ⊢
      exact collectPR_ok_getElem xs ys hxs j b hb

/-- Lemma: `collectPR` cannot succeed when some element is a panic. -/
theorem collectPR_ne_ok_of_mem_none {γ : Type u} :
    ∀ {l : List (Option (Except LoadError γ))},
      none ∈ l → ∀ bs, collectPR l ≠ some (.ok bs)
  | [], hmem, _, _ => absurd hmem (List.not_mem_nil _)
  | x :: xs, hmem, bs, h => by
    obtain ⟨y, ys, hx, hxs, _⟩ := collectPR_cons_ok h
    rcases List.mem_cons.mp hmem with h0 | h0
    · rw [← h0] at hx
      exact absurd hx (by simp)
    · exact collectPR_ne_ok_of_mem_none h0 ys hxs

/-- When no element panics but some element is an error, `collectPR` returns
an error. -/
theorem collectPR_error_of_mem {γ : Type u} :
    ∀ {l : List (Option (Except LoadError γ))},
      (∀ x ∈ l, x ≠ none) → (∃ e : LoadError, some (.error e) ∈ l) →
      ∃ e2, collectPR l = some (.error e2)
  | [], _, he => by
    obtain ⟨e, hmem⟩ := he
    exact absurd hmem (List.not_mem_nil _)
  | x :: xs, hnone, he => by
    obtain ⟨e, hmem⟩ := he
    cases hx : x with
    | none => exact absurd hx (hnone x (List.mem_cons_self x xs))
    | some r =>
      cases r with
      | error e1 => exact ⟨e1, by simp [collectPR, hx]⟩
      | ok y =>
        have hxs : some (Except.error e) ∈ xs := by
          rcases List.mem_cons.mp hmem with h0 | h0
          · rw [hx] at h0
            simp at h0
          · exact h0
        obtain ⟨e2, h2⟩ :=
          collectPR_error_of_mem (fun z hz => hnone z (List.mem_cons_of_mem x hz)) ⟨e, hxs⟩
        exact ⟨e2, by simp [collectPR, hx, h2]⟩

/-- Claim C10: each non-instanced draw operation equals its instanced
counterpart applied to the instance range `0..1`, for every mesh, model and
pair of uniform/light bind groups. -/
theorem draw_noninstanced_eq_instanced {α : Type u} {τ : Type v} {κ : Type w}
    (mesh : Mesh α) (material : Material τ) (model : Model α τ)
    (uniforms light : κ) :
    drawMesh mesh material uniforms light =
      drawMeshInstanced mesh material (0, 1) uniforms light ∧
    drawModel model uniforms light =
      drawModelInstanced model (0, 1) uniforms light ∧
    drawLightMesh (τ := τ) mesh uniforms light =
      drawLightMeshInstanced mesh (0, 1) uniforms light ∧
    drawLightModel model uniforms light =
      drawLightModelInstanced model (0, 1) uniforms light :=
  ⟨rfl, rfl, rfl, rfl⟩

/-- Claim C5: for a source mesh whose texcoord and normal arrays are long
enough for the declared vertex count, the vertex builder produces exactly
`positions.length / 3` records in order, where record `i` takes its position
from `positions[3i..3i+2]`, its texture coordinate from
`texcoords[2i..2i+1]`, its normal from `normals[3i..3i+2]`, and its tangent
and bitangent are the zero vector. -/
theorem buildVertices_spec {α : Type u} [Zero α] (m : ObjMesh α)
    (ht : 2 * (m.positions.length / 3) ≤ m.texcoords.length)
    (hn : 3 * (m.positions.length / 3) ≤ m.normals.length) :
    buildVertices m = some ((List.range (m.positions.length / 3)).map fun i =>
      { position := (m.positions.getD (i * 3) 0, m.positions.getD (i * 3 + 1) 0,
                     m.positions.getD (i * 3 + 2) 0)
        tex_coords := (m.texcoords.getD (i * 2) 0, m.texcoords.getD (i * 2 + 1) 0)
        normal := (m.normals.getD (i * 3) 0, m.normals.getD (i * 3 + 1) 0,
                   m.normals.getD (i * 3 + 2) 0)
        tangent := (0, 0, 0)
        bitangent := (0, 0, 0) }) := by
  unfold buildVertices
  apply mapPanic_eq_some_map
  intro i hi
  rw [List.mem_range] at hi
  have h3 : m.positions.length / 3 * 3 ≤ m.positions.length := Nat.div_mul_le_self _ _
  have hp0 : i * 3 < m.positions.length := by omega
  have hp1 : i * 3 + 1 < m.positions.length := by omega
  have hp2 : i * 3 + 2 < m.positions.length := by omega
  have ht0 : i * 2 < m.texcoords.length := by omega
  have ht1 : i * 2 + 1 < m.texcoords.length := by omega
  have hn0 : i * 3 < m.normals.length := by omega
  have hn1 : i * 3 + 1 < m.normals.length := by omega
  have hn2 : i * 3 + 2 < m.normals.length := by omega
  simp [List.getElem?_eq_getElem, hp0, hp1, hp2, ht0, ht1, hn0, hn1, hn2]

/-- Witness for `buildVertices_spec` at the concrete mesh `c5mesh`. -/
theorem buildVertices_spec_witness :
    2 * (c5mesh.positions.length / 3) ≤ c5mesh.texcoords.length ∧
    3 * (c5mesh.positions.length / 3) ≤ c5mesh.normals.length ∧
    buildVertices c5mesh = some ((List.range (c5mesh.positions.length / 3)).map fun i =>
      { position := (c5mesh.positions.getD (i * 3) 0, c5mesh.positions.getD (i * 3 + 1) 0,
                     c5mesh.positions.getD (i * 3 + 2) 0)
        tex_coords := (c5mesh.texcoords.getD (i * 2) 0, c5mesh.texcoords.getD (i * 2 + 1) 0)
        normal := (c5mesh.normals.getD (i * 3) 0, c5mesh.normals.getD (i * 3 + 1) 0,
                   c5mesh.normals.getD (i * 3 + 2) 0)
        tangent := (0, 0, 0)
        bitangent := (0, 0, 0) }) :=
  ⟨by decide, by decide, buildVertices_spec c5mesh (by decide) (by decide)⟩

/-- Claim C2 (counterexample): a parsed mesh whose `positions` declare one
vertex while `texcoords` is empty does NOT make `load` return an error value:
the whole call aborts (an out-of-bounds slice index, i.e. a panic), modelled
as `none` — in particular no `MalformedMeshData` error is produced, and no
such error exists in the code. -/
theorem load_inconsistent_no_error :
    ModelLoader.load (τ := Unit) (fun _ _ => none)
      (some ([c2objModel], [])) (some "res") = none := by
  rfl

/-- Claim C2 (amended): for every input whose flat arrays are inconsistent in
vertex count — the texcoord or normal array is too short for the vertex
count `positions.length / 3` — the buffer-building step of `load` aborts
with an out-of-bounds panic (no value at all), rather than returning an
error: the code has no `MalformedMeshData` error. -/
theorem buildMesh_inconsistent_aborts {α : Type u} [Zero α] (m : ObjModel α)
    (hpos : 0 < m.mesh.positions.length / 3)
    (hshort : m.mesh.texcoords.length < 2 * (m.mesh.positions.length / 3) ∨
      m.mesh.normals.length < 3 * (m.mesh.positions.length / 3)) :
    buildMesh m = none := by
  have hbv : buildVertices m.mesh = none := by
    unfold buildVertices
    set k := m.mesh.positions.length / 3 with hk
    apply mapPanic_eq_none_of_mem (x := k - 1)
    · exact List.mem_range.mpr (by omega)
    · have h3 : k * 3 ≤ m.mesh.positions.length := by
        rw [hk]
        exact Nat.div_mul_le_self _ _
      have hp0 : (k - 1) * 3 < m.mesh.positions.length := by omega
      have hp1 : (k - 1) * 3 + 1 < m.mesh.positions.length := by omega
      have hp2 : (k - 1) * 3 + 2 < m.mesh.positions.length := by omega
      cases ht0 : m.mesh.texcoords[(k - 1) * 2]? with
      | none => simp [List.getElem?_eq_getElem, hp0, hp1, hp2, ht0]
      | some t0 =>
        have hlt0 := (List.getElem?_eq_some_iff.mp ht0).1
        cases ht1 : m.mesh.texcoords[(k - 1) * 2 + 1]? with
        | none => simp [List.getElem?_eq_getElem, hp0, hp1, hp2, ht0, ht1]
        | some t1 =>
          have hlt1 := (List.getElem?_eq_some_iff.mp ht1).1
          cases hq0 : m.mesh.normals[(k - 1) * 3]? with
          | none => simp [List.getElem?_eq_getElem, hp0, hp1, hp2, ht0, ht1, hq0]
          | some n0 =>
            cases hq1 : m.mesh.normals[(k - 1) * 3 + 1]? with
            | none => simp [List.getElem?_eq_getElem, hp0, hp1, hp2, ht0, ht1, hq0, hq1]
            | some n1 =>
              cases hq2 : m.mesh.normals[(k - 1) * 3 + 2]? with
              | none =>
                simp [List.getElem?_eq_getElem, hp0, hp1, hp2, ht0, ht1, hq0, hq1, hq2]
              | some n2 =>
                have hlq2 := (List.getElem?_eq_some_iff.mp hq2).1
                exfalso
                rcases hshort with h | h <;> omega
  simp [buildMesh, hbv]

/-- Witness for `buildMesh_inconsistent_aborts` at the concrete sub-model
`c2objModel`. -/
theorem buildMesh_inconsistent_aborts_witness :
    0 < c2objModel.mesh.positions.length / 3 ∧
    (c2objModel.mesh.texcoords.length < 2 * (c2objModel.mesh.positions.length / 3) ∨
      c2objModel.mesh.normals.length < 3 * (c2objModel.mesh.positions.length / 3)) ∧
    buildMesh c2objModel = none :=
  ⟨by decide, by decide,
    buildMesh_inconsistent_aborts c2objModel (by decide) (by decide)⟩

/-- Claim C7: whenever the vertex build succeeds (and the index count fits in
u32), the constructed mesh has `num_elements` equal to the index count, the
tangent/bitangent compute dispatch launches `num_elements / 3` workgroups,
and a mesh with zero faces yields `num_elements = 0` and a zero-size
dispatch while the build still succeeds. -/
theorem mesh_num_elements_dispatch {α : Type u} [Zero α] (m : ObjModel α)
    (vs : List (ModelVertex α)) (hv : buildVertices m.mesh = some vs)
    (hlt : m.mesh.indices.length < 2 ^ 32) :
    ∃ mesh : Mesh α, buildMesh m = some (.ok mesh) ∧
      mesh.num_elements = m.mesh.indices.length ∧
      dispatchCount mesh = m.mesh.indices.length / 3 ∧
      (m.mesh.indices = [] → mesh.num_elements = 0 ∧ dispatchCount mesh = 0) := by
  refine ⟨{ name := m.name
            vertex_buffer := vs
            index_buffer := m.mesh.indices
            num_elements := m.mesh.indices.length % 2 ^ 32
            material := m.mesh.material_id.getD 0 }, ?_, ?_, ?_, ?_⟩
  · simp [buildMesh, hv]
  · simpa using Nat.mod_eq_of_lt hlt
  · have := Nat.mod_eq_of_lt hlt
    simp only [dispatchCount]
    omega
  · intro h
    simp [h, dispatchCount]

/-- Witness for `mesh_num_elements_dispatch` at the zero-face sub-model
`c7objModel`. -/
theorem mesh_num_elements_dispatch_witness :
    buildVertices c7objModel.mesh =
      some [⟨(1, 2, 3), (4, 5), (6, 7, 8), (0, 0, 0), (0, 0, 0)⟩] ∧
    c7objModel.mesh.indices.length < 2 ^ 32 ∧
    ∃ mesh : Mesh Nat, buildMesh c7objModel = some (.ok mesh) ∧
      mesh.num_elements = c7objModel.mesh.indices.length ∧
      dispatchCount mesh = c7objModel.mesh.indices.length / 3 ∧
      (c7objModel.mesh.indices = [] → mesh.num_elements = 0 ∧ dispatchCount mesh = 0) :=
  ⟨by decide, by decide,
    mesh_num_elements_dispatch c7objModel
      [⟨(1, 2, 3), (4, 5), (6, 7, 8), (0, 0, 0), (0, 0, 0)⟩] (by decide) (by decide)⟩

/-- The per-material closure never panics: the texture vector always has
exactly two elements when both loads succeed, so the two `pop().unwrap()`
calls cannot fail. -/
theorem loadMaterial_ne_none {τ : Type v} (loadTex : String → Bool → Option (Texture τ))
    (folder : String) (mat : ObjMaterial) :
    loadMaterial loadTex folder mat ≠ none := by
  cases h1 : loadTex (joinPath folder mat.diffuse_texture) false with
  | none => simp [loadMaterial, collectResult, loadTexture, h1]
  | some td =>
    cases h2 : loadTex (joinPath folder mat.normal_texture) true with
    | none => simp [loadMaterial, collectResult, loadTexture, h1, h2]
    | some tn => simp [loadMaterial, collectResult, loadTexture, h1, h2, vecPop]

/-- If either texture load of a material fails, the per-material closure
returns an error. -/
theorem loadMaterial_error_of_fail {τ : Type v}
    (loadTex : String → Bool → Option (Texture τ)) (folder : String) (mat : ObjMaterial)
    (hfail : loadTex (joinPath folder mat.diffuse_texture) false = none ∨
      loadTex (joinPath folder mat.normal_texture) true = none) :
    ∃ e, loadMaterial loadTex folder mat = some (.error e) := by
  cases h1 : loadTex (joinPath folder mat.diffuse_texture) false with
  | none =>
    exact ⟨.texture (joinPath folder mat.diffuse_texture) false,
      by simp [loadMaterial, collectResult, loadTexture, h1]⟩
  | some td =>
    cases h2 : loadTex (joinPath folder mat.normal_texture) true with
    | none =>
      exact ⟨.texture (joinPath folder mat.normal_texture) true,
        by simp [loadMaterial, collectResult, loadTexture, h1, h2]⟩
    | some tn =>
      rcases hfail with h | h
      · rw [h1] at h
        exact absurd h (by simp)
      · rw [h2] at h
        exact absurd h (by simp)

/-- Claim C6: the diffuse texture is loaded with `is_normal_map = false` and
the normal texture with `true`; the pop-based unpacking preserves the
diffuse/normal correspondence, and the constructed material's bind group
puts the diffuse view and sampler in slots 0 and 1 and the normal view and
sampler in slots 2 and 3. -/
theorem loadMaterial_slots {τ : Type v} (loadTex : String → Bool → Option (Texture τ))
    (folder : String) (mat : ObjMaterial) (td tn : Texture τ)
    (hd : loadTex (joinPath folder mat.diffuse_texture) false = some td)
    (hn : loadTex (joinPath folder mat.normal_texture) true = some tn) :
    loadMaterial loadTex folder mat = some (.ok
      { name := mat.name
        diffuse_texture := td
        normal_texture := tn
        bind_group := [(0, .textureView td.view), (1, .sampler td.sampler),
                       (2, .textureView tn.view), (3, .sampler tn.sampler)] }) := by
  simp [loadMaterial, collectResult, loadTexture, hd, hn, vecPop, Material.new]

/-- Witness for `loadMaterial_slots` at a concrete loader and material. -/
theorem loadMaterial_slots_witness :
    c6loadTex (joinPath "res" "d.png") false = some ⟨3, 4⟩ ∧
    c6loadTex (joinPath "res" "n.png") true = some ⟨1, 2⟩ ∧
    loadMaterial c6loadTex "res" ⟨"mat", "d.png", "n.png"⟩ = some (.ok
      { name := "mat"
        diffuse_texture := ⟨3, 4⟩
        normal_texture := ⟨1, 2⟩
        bind_group := [(0, .textureView 3), (1, .sampler 4),
                       (2, .textureView 1), (3, .sampler 2)] }) :=
  ⟨by decide, by decide,
    loadMaterial_slots c6loadTex "res" ⟨"mat", "d.png", "n.png"⟩ ⟨3, 4⟩ ⟨1, 2⟩
      (by decide) (by decide)⟩

/-- Unfolding of `ModelLoader.load` once parsing and the parent lookup have
succeeded. -/
theorem load_some_some {α : Type u} {τ : Type v} [Zero α]
    (loadTex : String → Bool → Option (Texture τ))
    (obj_models : List (ObjModel α)) (obj_materials : List ObjMaterial) (folder : String) :
    ModelLoader.load loadTex (some (obj_models, obj_materials)) (some folder) =
      (match collectPR (obj_materials.map (loadMaterial loadTex folder)) with
       | none => none
       | some (.error e) => some (.error e)
       | some (.ok materials) =>
         match collectPR (obj_models.map buildMesh) with
         | none => none
         | some (.error e) => some (.error e)
         | some (.ok meshes) => some (.ok { meshes := meshes, materials := materials })) :=
  rfl

/-- Inversion of a successful `load`: both collections succeeded and produced
exactly the model's material and mesh sequences. -/
theorem load_ok_inv {α : Type u} {τ : Type v} [Zero α]
    {loadTex : String → Bool → Option (Texture τ)}
    {obj_models : List (ObjModel α)} {obj_materials : List ObjMaterial}
    {folder : String} {model : Model α τ}
    (h : ModelLoader.load loadTex (some (obj_models, obj_materials)) (some folder) =
      some (.ok model)) :
    collectPR (obj_materials.map (loadMaterial loadTex folder)) =
      some (.ok model.materials) ∧
    collectPR (obj_models.map buildMesh) = some (.ok model.meshes) := by
  rw [load_some_some] at h
  cases hm : collectPR (obj_materials.map (loadMaterial loadTex folder)) with
  | none => rw [hm] at h; simp at h
  | some r =>
    cases r with
    | error e => rw [hm] at h; simp at h
    | ok materials =>
      rw [hm] at h
      cases hq : collectPR (obj_models.map buildMesh) with
      | none => rw [hq] at h; simp at h
      | some r2 =>
        cases r2 with
        | error e => rw [hq] at h; simp at h
        | ok meshes =>
          rw [hq] at h
          simp at h
          subst h
          exact ⟨rfl, rfl⟩

/-- Claim C4 (counterexample): with a failing mesh buffer build (empty
`normals` array for a declared vertex), `load` does not return an error
value: it aborts with a panic (`none`), so the claim that any buffer-build
failure makes `load` RETURN an error does not hold as stated. -/
theorem load_build_failure_aborts :
    ModelLoader.load (τ := Unit) (fun _ _ => none)
      (some ([c4objModel], [])) (some "res") = none := by
  rfl

/-- Claim C4 (amended): if any texture load fails, `load` returns an error
and no Model; if any mesh buffer build fails (an out-of-bounds panic in the
vertex builder), `load` aborts; in both cases no execution returns a
partially assembled Model (all-or-nothing). -/
theorem load_all_or_nothing {α : Type u} {τ : Type v} [Zero α]
    (loadTex : String → Bool → Option (Texture τ))
    (obj_models : List (ObjModel α)) (obj_materials : List ObjMaterial) (folder : String) :
    ((∃ mat ∈ obj_materials,
        loadTex (joinPath folder mat.diffuse_texture) false = none ∨
        loadTex (joinPath folder mat.normal_texture) true = none) →
      ∃ e, ModelLoader.load (α := α) loadTex (some (obj_models, obj_materials))
        (some folder) = some (.error e)) ∧
    ((∃ m ∈ obj_models, buildVertices m.mesh = none) →
      ∀ model : Model α τ,
        ModelLoader.load loadTex (some (obj_models, obj_materials)) (some folder) ≠
          some (.ok model)) := by
  constructor
  · rintro ⟨mat, hmem, hfail⟩
    obtain ⟨e, he⟩ := loadMaterial_error_of_fail loadTex folder mat hfail
    have hnn : ∀ x ∈ obj_materials.map (loadMaterial loadTex folder), x ≠ none := by
      intro x hx
      obtain ⟨mat2, _, rfl⟩ := List.mem_map.mp hx
      exact loadMaterial_ne_none loadTex folder mat2
    have hmem2 : some (Except.error e) ∈ obj_materials.map (loadMaterial loadTex folder) :=
      List.mem_map.mpr ⟨mat, hmem, he⟩
    obtain ⟨e2, h2⟩ := collectPR_error_of_mem hnn ⟨e, hmem2⟩
    refine ⟨e2, ?_⟩
    rw [load_some_some, h2]
  · rintro ⟨m, hmem, hbv⟩ model hload
    obtain ⟨hmats, hmesh⟩ := load_ok_inv hload
    have hbm : buildMesh m = none := by simp [buildMesh, hbv]
    have hnone : (none : Option (Except LoadError (Mesh α))) ∈ obj_models.map buildMesh :=
      List.mem_map.mpr ⟨m, hmem, hbm⟩
    exact collectPR_ne_ok_of_mem_none hnone model.meshes hmesh

/-- Witness for `load_all_or_nothing`: a failing texture loader with
one material makes `load` return an error, and a sub-model with an
inconsistent mesh prevents `load` from returning any Model. -/
theorem load_all_or_nothing_witness :
    (∃ e, ModelLoader.load (α := Nat) (τ := Unit) (fun _ _ => none)
      (some ([c2objModel], [⟨"mat", "d.png", "n.png"⟩])) (some "res") =
        some (.error e)) ∧
    ∀ model : Model Nat Unit,
      ModelLoader.load (fun _ _ => none)
        (some ([c2objModel], [⟨"mat", "d.png", "n.png"⟩])) (some "res") ≠
          some (.ok model) :=
  ⟨(load_all_or_nothing (fun _ _ => none) [c2objModel] [⟨"mat", "d.png", "n.png"⟩] "res").1
      ⟨⟨"mat", "d.png", "n.png"⟩, List.mem_singleton.mpr rfl, Or.inl rfl⟩,
   (load_all_or_nothing (fun _ _ => none) [c2objModel] [⟨"mat", "d.png", "n.png"⟩] "res").2
      ⟨c2objModel, List.mem_singleton.mpr rfl, by decide⟩⟩

/-- Claim C3 (counterexample): a valid asset with one consistent sub-model
that declares no material and an empty material list loads successfully, but
the resulting Model stores material index 0 for its mesh while owning zero
materials — so the index is NOT within bounds and the unchecked
`materials[mesh.material]` lookup of `draw_model_instanced` would go out of
bounds. -/
theorem load_material_index_out_of_bounds :
    ModelLoader.load (fun _ _ => none) (some ([c3objModel], [])) (some "res") =
      some (.ok c3model) ∧
    c3model.meshes.map Mesh.material = [0] ∧
    c3model.materials.length = 0 ∧
    drawModelInstanced c3model (0, 1) 7 8 = none := by
  refine ⟨rfl, rfl, rfl, rfl⟩

/-- Claim C3 (amended): provided the asset declares at least one material and
every sub-model's declared `material_id` is within bounds of the material
list, a successful `load` returns a Model whose mesh material indices are
all within bounds of `materials`; each mesh's index is
`material_id.unwrap_or(0)`, so a mesh declaring no material receives
index 0. -/
theorem load_material_indices_in_bounds {α : Type u} {τ : Type v} [Zero α]
    (loadTex : String → Bool → Option (Texture τ))
    (obj_models : List (ObjModel α)) (obj_materials : List ObjMaterial)
    (folder : String) (model : Model α τ)
    (hload : ModelLoader.load loadTex (some (obj_models, obj_materials)) (some folder) =
      some (.ok model))
    (hids : ∀ m ∈ obj_models, ∀ idx, m.mesh.material_id = some idx →
      idx < obj_materials.length)
    (hne : 0 < obj_materials.length) :
    (∀ mesh ∈ model.meshes, mesh.material < model.materials.length) ∧
    (∀ (i : Nat) (m : ObjModel α) (mesh : Mesh α),
      obj_models[i]? = some m → model.meshes[i]? = some mesh →
      mesh.material = m.mesh.material_id.getD 0) := by
  obtain ⟨hmats, hmesh⟩ := load_ok_inv hload
  have hlen : model.materials.length = obj_materials.length := by
    have := collectPR_ok_length hmats
    simpa using this
  have hpoint : ∀ (i : Nat) (mesh : Mesh α), model.meshes[i]? = some mesh →
      ∃ m : ObjModel α, obj_models[i]? = some m ∧ buildMesh m = some (.ok mesh) := by
    intro i mesh hi
    have hmap := collectPR_ok_getElem _ _ hmesh i mesh hi
    rw [List.getElem?_map] at hmap
    cases hio : obj_models[i]? with
    | none => rw [hio] at hmap; simp at hmap
    | some m =>
      rw [hio] at hmap
      simp at hmap
      exact ⟨m, rfl, hmap⟩
  have hmat_of : ∀ (m : ObjModel α) (mesh : Mesh α), buildMesh m = some (.ok mesh) →
      mesh.material = m.mesh.material_id.getD 0 := by
    intro m mesh hb
    unfold buildMesh at hb
    cases hv : buildVertices m.mesh with
    | none => rw [hv] at hb; simp at hb
    | some vs =>
      rw [hv] at hb
      simp at hb
      rw [← hb]
  refine ⟨?_, ?_⟩
  · intro mesh hmem
    obtain ⟨i, hi⟩ := List.mem_iff_getElem?.mp hmem
    obtain ⟨m, hio, hb⟩ := hpoint i mesh hi
    have hmm : m ∈ obj_models := List.mem_iff_getElem?.mpr ⟨i, hio⟩
    rw [hmat_of m mesh hb, hlen]
    cases hid : m.mesh.material_id with
    | none => simpa [hid] using hne
    | some idx => simpa [hid] using hids m hmm idx hid
  · intro i m mesh hio hi
    obtain ⟨m2, hio2, hb⟩ := hpoint i mesh hi
    rw [hio] at hio2
    cases hio2
    exact hmat_of _ _ hb

/-- Witness for `load_material_indices_in_bounds` at a concrete asset with
one material and one zero-face sub-model referencing material 0. -/
theorem load_material_indices_in_bounds_witness :
    ModelLoader.load c3loadTex (some ([c7objModel], [c3objMaterial])) (some "res") =
      some (.ok c3okmodel) ∧
    0 < [c3objMaterial].length ∧
    ((∀ mesh ∈ c3okmodel.meshes, mesh.material < c3okmodel.materials.length) ∧
     (∀ (i : Nat) (m : ObjModel Nat) (mesh : Mesh Nat),
       [c7objModel][i]? = some m → c3okmodel.meshes[i]? = some mesh →
       mesh.material = m.mesh.material_id.getD 0)) :=
  ⟨rfl, by decide,
    load_material_indices_in_bounds c3loadTex [c7objModel] [c3objMaterial] "res" c3okmodel
      rfl
      (by
        intro m hm idx h
        rw [List.mem_singleton] at hm
        subst hm
        have h2 : (some 0 : Option Nat) = some idx := h
        have h3 : idx = 0 := (Option.some.inj h2).symm
        subst h3
        decide)
      (by decide)⟩
